import Mathlib

/-!
# Shallow embedding of `scanner_motor_control`

This file embeds the core of the `scanner_motor_control` repository
(`src/scanner_motor_control/tmcl_interface.py`, `motor_controller.py`,
`scanner_motor_manager.py`) in Lean 4 and proves properties of it.

Modelling conventions:
* Python `bytes`/`bytearray` values are `List Nat` with entries in `0..255`.
* Python `int` is `Int`; overflow-checked conversions (`int.to_bytes`) return
  `Option`/are guarded explicitly.
* Python `float` calibration values (`dist_per_rot`, mm distances) are modelled
  as exact rationals `ℚ`; `int(x)` truncation toward zero is modelled exactly.
* Exceptions are modelled with `Except`; the serial transport is an oracle
  `R : Nat → List Nat` giving the raw 9-byte reply to the n-th write, and the
  effect of a motor operation is the ordered list of frames it wrote.
* Unbounded polling loops take a fuel argument; exhausted fuel is reported as a
  distinguished outcome (`MotorErr.outOfFuel`), never silently converted into a
  result.
-/

namespace SMC

/-- A wire frame: a list of byte values (Python `bytearray`). -/
abbrev Frame := List Nat

/-- Source `class TMCLCommands(Enum)` from `tmcl_interface.py`. -/
inductive TMCLCommands
  | ROTATE_RIGHT
  | ROTATE_LEFT
  | STOP_MOTOR_MOVEMENT
  | MOVE_TO_POSITION
  | SET_AXIS_PARAMETER
  | GET_AXIS_PARAMETER
  | STORE_AXIS_PARAMETER
  | RESTORE_AXIS_PARAMETER
  deriving DecidableEq, Repr

/-- The `.value` of each `TMCLCommands` member. -/
def TMCLCommands.value : TMCLCommands → Nat
  | .ROTATE_RIGHT => 1
  | .ROTATE_LEFT => 2
  | .STOP_MOTOR_MOVEMENT => 3
  | .MOVE_TO_POSITION => 4
  | .SET_AXIS_PARAMETER => 5
  | .GET_AXIS_PARAMETER => 6
  | .STORE_AXIS_PARAMETER => 7
  | .RESTORE_AXIS_PARAMETER => 8

/-- Source `class MotorMovement(Enum)` from `tmcl_interface.py`. -/
inductive MotorMovement
  | ABSOLUTE
  | RELATIVE
  deriving DecidableEq, Repr

/-- The `.value` of each `MotorMovement` member. -/
def MotorMovement.value : MotorMovement → Nat
  | .ABSOLUTE => 0
  | .RELATIVE => 1

/-- Source `class TMCLPars(Enum)` from `tmcl_interface.py`: the addressable axis
parameters (controller registers). -/
inductive TMCLPars
  | TARGET_POSITION_MICROSTEPS
  | ACTUAL_POSITION_MICROSTEPS
  | TARGET_SPEED
  | ACTUAL_SPEED
  | MAX_SPEED
  | MAX_ACCELERATION
  | MAX_CURRENT_mA
  | STANDBY_CURRENT_mA
  | TARGET_POSITION_REACHED
  | REFERENCE_SWITCH_STATUS
  | RIGHT_LIMIT_SWITCH_STATUS
  | LEFT_LIMIT_SWITCH_STATUS
  | RIGHT_LIMIT_SWITCH_DISABLE
  | LEFT_LIMIT_SWITCH_DISABLE
  | MIN_SPEED
  | ACTUAL_ACCELERATION
  | RAMP_MODE
  | MICROSTEP_RESOLUTION
  | REFERENCE_SWITCH_TOLERANCE
  | SOFT_STOP_FLAG
  | RAMP_DIVISOR
  | PULSE_DIVISOR
  | REFERENCING_MODE
  | REFERENCING_SEARCH_SPEED
  | REFERENCING_SWITCH_SPEED
  | MIXED_DECAY_THRESHOLD
  | FREEWHEELING
  | STALL_DETECTION_THRESHOLD
  | ACTUAL_LOAD_VALUE
  | DRIVER_ERROR_FLAGS
  | FULLSTEP_THRESHOLD
  | POWER_DOWN_DELAY_10ms
  deriving DecidableEq, Repr

/-- The `.value` of each `TMCLPars` member. -/
def TMCLPars.value : TMCLPars → Nat
  | .TARGET_POSITION_MICROSTEPS => 0
  | .ACTUAL_POSITION_MICROSTEPS => 1
  | .TARGET_SPEED => 2
  | .ACTUAL_SPEED => 3
  | .MAX_SPEED => 4
  | .MAX_ACCELERATION => 5
  | .MAX_CURRENT_mA => 6
  | .STANDBY_CURRENT_mA => 7
  | .TARGET_POSITION_REACHED => 8
  | .REFERENCE_SWITCH_STATUS => 9
  | .RIGHT_LIMIT_SWITCH_STATUS => 10
  | .LEFT_LIMIT_SWITCH_STATUS => 11
  | .RIGHT_LIMIT_SWITCH_DISABLE => 12
  | .LEFT_LIMIT_SWITCH_DISABLE => 13
  | .MIN_SPEED => 130
  | .ACTUAL_ACCELERATION => 135
  | .RAMP_MODE => 138
  | .MICROSTEP_RESOLUTION => 140
  | .REFERENCE_SWITCH_TOLERANCE => 141
  | .SOFT_STOP_FLAG => 149
  | .RAMP_DIVISOR => 153
  | .PULSE_DIVISOR => 154
  | .REFERENCING_MODE => 193
  | .REFERENCING_SEARCH_SPEED => 194
  | .REFERENCING_SWITCH_SPEED => 195
  | .MIXED_DECAY_THRESHOLD => 203
  | .FREEWHEELING => 204
  | .STALL_DETECTION_THRESHOLD => 205
  | .ACTUAL_LOAD_VALUE => 206
  | .DRIVER_ERROR_FLAGS => 208
  | .FULLSTEP_THRESHOLD => 211
  | .POWER_DOWN_DELAY_10ms => 214

/-- Source `class StatusCodes(Enum)` from `tmcl_interface.py`. -/
inductive StatusCodes
  | SUCCESS
  | COMMAND_LOADED
  | WRONG_CHECKSUM
  | INVALID_COMMAND
  | WRONG_TYPE
  | INVALID_VALUE
  | EEPROM_LOCKED
  | COMMAND_NOT_AVAILABLE
  deriving DecidableEq, Repr

/-- The `.value` of each `StatusCodes` member. -/
def StatusCodes.value : StatusCodes → Nat
  | .SUCCESS => 100
  | .COMMAND_LOADED => 101
  | .WRONG_CHECKSUM => 1
  | .INVALID_COMMAND => 2
  | .WRONG_TYPE => 3
  | .INVALID_VALUE => 4
  | .EEPROM_LOCKED => 5
  | .COMMAND_NOT_AVAILABLE => 6

/-- Source `StatusCodes(n)`: look a member up by value; `none` models the `ValueError`
Python raises when `n` is not a member value. -/
def StatusCodes.ofValue : Nat → Option StatusCodes
  | 100 => some .SUCCESS
  | 101 => some .COMMAND_LOADED
  | 1 => some .WRONG_CHECKSUM
  | 2 => some .INVALID_COMMAND
  | 3 => some .WRONG_TYPE
  | 4 => some .INVALID_VALUE
  | 5 => some .EEPROM_LOCKED
  | 6 => some .COMMAND_NOT_AVAILABLE
  | _ => none

/-- Source `value.to_bytes(4, byteorder="big", signed=True)`: the 4 big-endian
two's-complement bytes of `value`, or `none` for the `OverflowError` raised
when `value` is outside the signed 32-bit range. -/
def to_bytes_4_be_signed (value : Int) : Option (List Nat) :=
  if -(2 ^ 31) ≤ value ∧ value < 2 ^ 31 then
    let v : Nat := (value % (2 ^ 32)).toNat
    some [v / 2 ^ 24 % 256, v / 2 ^ 16 % 256, v / 2 ^ 8 % 256, v % 256]
  else none

namespace TMCL

/-- Source `TMCL._encode` from `tmcl_interface.py`.

`bytearray([target_address, cmd.value, parameter.value, motor_number])` raises
`ValueError` when an entry is outside `0..255`, and
`value.to_bytes(4, "big", signed=True)` raises `OverflowError` outside the
signed 32-bit range; both exceptions are modelled by `none`.  `parameter_value`
is the `.value` of the enum member the Python callers pass. -/
def encode (cmd : TMCLCommands) (target_address : Int) (parameter_value : Nat)
    (motor_number : Int) (value : Int) : Option Frame :=
  if 0 ≤ target_address ∧ target_address < 256 ∧ cmd.value < 256 ∧
      parameter_value < 256 ∧ 0 ≤ motor_number ∧ motor_number < 256 then
    match to_bytes_4_be_signed value with
    | none => none
    | some value_bytes =>
      let binary_msg : Frame :=
        [target_address.toNat, cmd.value, parameter_value, motor_number.toNat]
          ++ value_bytes
      some (binary_msg ++ [binary_msg.sum % 256])
  else none

/-- Source `TMCL.rotate_right_motor` (defaults `target_address=1`, `parameter=0`,
`motor_number=0`). -/
def rotate_right_motor (value : Int) : Option Frame :=
  encode .ROTATE_RIGHT 1 0 0 value

/-- Source `TMCL.rotate_left_motor`. -/
def rotate_left_motor (value : Int) : Option Frame :=
  encode .ROTATE_LEFT 1 0 0 value

/-- Source `TMCL.stop_motor_movement`. -/
def stop_motor_movement : Option Frame :=
  encode .STOP_MOTOR_MOVEMENT 1 0 0 0

/-- Source `TMCL.move_to_position`. -/
def move_to_position (parameter : MotorMovement) (value : Int) : Option Frame :=
  encode .MOVE_TO_POSITION 1 parameter.value 0 value

/-- Source `TMCL.set_axis_parameter`. -/
def set_axis_parameter (parameter : TMCLPars) (value : Int) : Option Frame :=
  encode .SET_AXIS_PARAMETER 1 parameter.value 0 value

/-- Source `TMCL.get_axis_parameter`. -/
def get_axis_parameter (parameter : TMCLPars) : Option Frame :=
  encode .GET_AXIS_PARAMETER 1 parameter.value 0 0

/-- Source `TMCL.store_axis_parameter`. -/
def store_axis_parameter (parameter : TMCLPars) : Option Frame :=
  encode .STORE_AXIS_PARAMETER 1 parameter.value 0 0

/-- Source `TMCL.restore_axis_parameter`. -/
def restore_axis_parameter (parameter : TMCLPars) : Option Frame :=
  encode .RESTORE_AXIS_PARAMETER 1 parameter.value 0 0

end TMCL

/-- The exception raised inside `TMCL.decode_reply`. -/
inductive DecodeError
  /-- Source `int("", 16)` raises `ValueError`: the sliced value field
  `dec_reply[4:8]` was empty (reply shorter than 5 bytes). -/
  | emptyValueField
  /-- Source `dec_reply[8]` raises `IndexError`: no checksum byte (reply shorter
  than 9 bytes). -/
  | missingChecksum
  /-- Source `dec_reply[2]` raises `IndexError` (unreachable once index 8 exists;
  kept for totality of the model). -/
  | missingStatus
  /-- Source `StatusCodes(dec_reply[2])` raises `ValueError`: the status byte is not
  a member value of `StatusCodes`. -/
  | unknownStatus (byte : Nat)
  deriving DecidableEq, Repr

/-- Source `TMCL.decode_reply` from `tmcl_interface.py`.

The source joins `dec_reply[4:8]` into a hex string and parses it with
`int(hex_value, 16)` — an **unsigned** base-256 read of the value field (each
byte contributes two hex digits); it then reads the checksum byte
`dec_reply[8]` (unverified) and looks the status byte `dec_reply[2]` up in
`StatusCodes`.  Error statuses 1–6 are only logged (a side effect not
modelled); the decoded value is returned regardless. -/
def TMCL.decode_reply (reply : List Nat) : Except DecodeError Int :=
  let dec_reply := reply
  let value_bytes := (dec_reply.drop 4).take 4
  if value_bytes.isEmpty then .error .emptyValueField
  else
    let int_value : Int := value_bytes.foldl (fun acc b => acc * 256 + (b : Int)) 0
    match dec_reply.get? 8 with
    | none => .error .missingChecksum
    | some _checksum =>
      match dec_reply.get? 2 with
      | none => .error .missingStatus
      | some status_byte =>
        match StatusCodes.ofValue status_byte with
        | none => .error (.unknownStatus status_byte)
        | some _status => .ok int_value

/-- Extract the frame from a known-successful encoding. -/
def frameOf (o : Option Frame) : Frame := o.getD []

/-! ## `motor_controller.py` — the `Motor` axis controller

The serial transport is abstracted into a reply oracle `R : Nat → List Nat`
giving the raw bytes `self._serial.read(9)` returns for the n-th write; the
observable effect of an operation is the ordered list of frames it wrote
(`Serial`).  `time.time()` is abstracted into `t0` (sampled before the wait
loop) and `T i` (sampled during loop iteration `i`), with time measured in
abstract units (`Int`). -/

/-- Per-axis configuration from `Motor.__init__`; `port` and `baudrate` only
identify the transport, which is abstracted into the reply oracle, so they are
omitted. -/
structure Motor where
  motor_number : Int
  dist_per_rot : ℚ
  MAX_STEP : Int
  deriving DecidableEq, Repr

/-- Source `self.STALL_THRESHOLD = 7` (identical on every instance). -/
def Motor.STALL_THRESHOLD : Int := 7

/-- Source `self.DECAY_THRESHOLD = -1`. -/
def Motor.DECAY_THRESHOLD : Int := -1

/-- Source `self.MAX_FREEZE_TIME = 10`. -/
def Motor.MAX_FREEZE_TIME : Int := 10

/-- Source `self.SET_MICROSTEP_RESO = 6`. -/
def Motor.SET_MICROSTEP_RESO : Nat := 6

/-- Python `int(q)`: truncation toward zero. -/
def truncInt (q : ℚ) : Int := if q < 0 then q.ceil else q.floor

/-- Source `Motor._microsteps_to_mm` (float arithmetic as exact rationals). -/
def Motor.microsteps_to_mm (m : Motor) (position : Int) : ℚ :=
  let micsteps_per_rot : ℚ := 200 * 2 ^ Motor.SET_MICROSTEP_RESO
  position * m.dist_per_rot / micsteps_per_rot

/-- Source `Motor._mm_to_microsteps`. -/
def Motor.mm_to_microsteps (m : Motor) (distance : ℚ) : Int :=
  let micsteps_per_rot : ℚ := 200 * 2 ^ Motor.SET_MICROSTEP_RESO
  truncInt (distance / m.dist_per_rot * micsteps_per_rot)

/-- The frames written to the serial port so far, in order. -/
abbrev Serial := List Frame

/-- A failure escaping a `Motor` operation. -/
inductive MotorErr
  /-- an exception raised by `TMCL.decode_reply` on the read bytes -/
  | decodeFailed (e : DecodeError)
  /-- an exception raised while encoding the command to send -/
  | encodeFailed
  /-- Source `raise ValueError(mssg)` in `Motor.move_in_step` -/
  | valueFailed (msg : String)
  /-- the `exit()` call in `Motor._check_if_finished_moving`: the process
  terminates instead of returning to the caller -/
  | exited
  /-- modelling artifact: the fuel bound of an unbounded polling loop was
  exhausted (the source would still be polling) -/
  | outOfFuel
  deriving DecidableEq, Repr

/-- Result of a motor operation: its outcome plus the updated write log. -/
abbrev MotorM (α : Type) := Except MotorErr α × Serial

/-- Sequencing with exception propagation (the write log survives a raise). -/
def andThen {α β : Type} (x : MotorM α) (f : α → Serial → MotorM β) : MotorM β :=
  match x with
  | (.error e, st) => (.error e, st)
  | (.ok a, st) => f a st

/-- Source `Motor._write_to_serial`: write the encoded command, read 9 bytes from the
transport (the oracle `R`, indexed by the number of frames written so far) and
decode them.  An exception while building the command (`none`) is raised
before anything is written. -/
def write_to_serial (R : Nat → List Nat) (st : Serial) (byte_cmd : Option Frame) :
    MotorM Int :=
  match byte_cmd with
  | none => (.error .encodeFailed, st)
  | some f =>
    match TMCL.decode_reply (R st.length) with
    | .error e => (.error (.decodeFailed e), st ++ [f])
    | .ok v => (.ok v, st ++ [f])

/-- Source `Motor._get_parameter`. -/
def get_parameter (R : Nat → List Nat) (st : Serial) (p : TMCLPars) : MotorM Int :=
  write_to_serial R st (TMCL.get_axis_parameter p)

/-- Source `Motor._set_and_store`. -/
def set_and_store (R : Nat → List Nat) (st : Serial) (p : TMCLPars) (value : Int) :
    MotorM Unit :=
  andThen (write_to_serial R st (TMCL.set_axis_parameter p value)) fun _ st =>
  andThen (write_to_serial R st (TMCL.store_axis_parameter p)) fun _ st =>
  (.ok (), st)

/-- Source `Motor.activate_stall_guard`. -/
def activate_stall_guard (R : Nat → List Nat) (st : Serial) : MotorM Unit :=
  andThen (set_and_store R st .MAX_SPEED 1000) fun _ st =>
  andThen (set_and_store R st .MIXED_DECAY_THRESHOLD 2048) fun _ st =>
  set_and_store R st .STALL_DETECTION_THRESHOLD Motor.STALL_THRESHOLD

/-- Source `Motor.deactivate_stall_guard`. -/
def deactivate_stall_guard (R : Nat → List Nat) (st : Serial) : MotorM Unit :=
  andThen (set_and_store R st .MAX_SPEED 1000) fun _ st =>
  andThen (set_and_store R st .MIXED_DECAY_THRESHOLD Motor.DECAY_THRESHOLD) fun _ st =>
  set_and_store R st .STALL_DETECTION_THRESHOLD 0

/-- Source `Motor.get_current_position`: read ACTUAL_POSITION_MICROSTEPS and return
`(mm, steps)`. -/
def get_current_position (R : Nat → List Nat) (m : Motor) (st : Serial) :
    MotorM (ℚ × Int) :=
  andThen (get_parameter R st .ACTUAL_POSITION_MICROSTEPS) fun steps st =>
  (.ok (m.microsteps_to_mm steps, steps), st)

/-- The message of `check_if_microstep_allowed` when `steps > MAX_STEP`.  The
source additionally renders `MAX_STEP` in mm with `:.2f` float formatting,
elided here. -/
def msg_step_too_large (m : Motor) (steps : Int) : String :=
  "Motor " ++ toString m.motor_number ++ ": Requested position step "
    ++ toString steps ++ " larger than maximum allowed " ++ toString m.MAX_STEP

/-- The message of `check_if_microstep_allowed` when `steps < 0`. -/
def msg_step_negative (m : Motor) (steps : Int) : String :=
  "Motor " ++ toString m.motor_number ++ ": Requested position step "
    ++ toString steps ++ " is negative."

/-- Source `Motor.check_if_microstep_allowed`.  When `relative` is true the current
position is read from the hardware first (`steps += self.get_current_position()[1]`). -/
def check_if_microstep_allowed (R : Nat → List Nat) (m : Motor) (st : Serial)
    (steps : Int) (relative : Bool) : MotorM (Bool × String) :=
  andThen
    (if relative then
      andThen (get_current_position R m st) fun cur st => (.ok (steps + cur.2), st)
    else (.ok steps, st)) fun steps st =>
  if steps > m.MAX_STEP then (.ok (false, msg_step_too_large m steps), st)
  else if steps < 0 then (.ok (false, msg_step_negative m steps), st)
  else (.ok (true, "Valid"), st)

/-- Source `Motor.check_if_position_in_mm_allowed`. -/
def check_if_position_in_mm_allowed (R : Nat → List Nat) (m : Motor) (st : Serial)
    (position : ℚ) (relative : Bool) : MotorM (Bool × String) :=
  check_if_microstep_allowed R m st (m.mm_to_microsteps position) relative

/-- The polling loop of `Motor._check_if_finished_moving`.  `position_old` is
the position read before the loop — the source never updates it.  One
iteration reads TARGET_POSITION_REACHED and, while it is 0, sleeps and reads
ACTUAL_POSITION_MICROSTEPS: a position differing from `position_old` resets
`last_move_time` to the current time `T i`; otherwise, if more than
MAX_FREEZE_TIME has passed since `last_move_time`, the source logs and calls
`exit()`. -/
def check_loop (R : Nat → List Nat) (T : Nat → Int) (position_old : Int) :
    Nat → Nat → Int → Serial → MotorM Unit
  | 0, _, _, st => (.error .outOfFuel, st)
  | fuel + 1, i, last_move_time, st =>
    andThen (get_parameter R st .TARGET_POSITION_REACHED) fun target st =>
    if target = 0 then
      andThen (get_parameter R st .ACTUAL_POSITION_MICROSTEPS) fun new_position st =>
      if new_position ≠ position_old then
        check_loop R T position_old fuel (i + 1) (T i) st
      else if T i - last_move_time > Motor.MAX_FREEZE_TIME then
        (.error .exited, st)
      else
        check_loop R T position_old fuel (i + 1) last_move_time st
    else (.ok (), st)

/-- Source `Motor._check_if_finished_moving`: read the initial position, record
`last_move_time = time.time()` (the parameter `t0`), then poll. -/
def check_if_finished_moving (R : Nat → List Nat) (T : Nat → Int) (t0 : Int)
    (st : Serial) (fuel : Nat) : MotorM Unit :=
  andThen (get_parameter R st .ACTUAL_POSITION_MICROSTEPS) fun position_old st =>
  check_loop R T position_old fuel 0 t0 st

/-- Source `Motor.move_in_step`: resolve RELATIVE to an absolute target by adding the
current position, validate with `check_if_microstep_allowed(steps)` (absolute),
raise `ValueError` when invalid, otherwise send MOVE_TO_POSITION (always
ABSOLUTE) and wait for completion. -/
def move_in_step (R : Nat → List Nat) (T : Nat → Int) (t0 : Int) (m : Motor)
    (st : Serial) (steps : Int) (mode : MotorMovement) (fuel : Nat) : MotorM Unit :=
  andThen
    (if mode = .RELATIVE then
      andThen (get_current_position R m st) fun cur st => (.ok (steps + cur.2), st)
    else (.ok steps, st)) fun steps st =>
  andThen (check_if_microstep_allowed R m st steps false) fun chk st =>
  if chk.1 = false then (.error (.valueFailed chk.2), st)
  else
    andThen (write_to_serial R st (TMCL.move_to_position .ABSOLUTE steps)) fun _ st =>
    check_if_finished_moving R T t0 st fuel

/-- Source `Motor.move_relative_distance_in_mm`. -/
def move_relative_distance_in_mm (R : Nat → List Nat) (T : Nat → Int) (t0 : Int)
    (m : Motor) (st : Serial) (distance_mm : ℚ) (fuel : Nat) : MotorM Unit :=
  move_in_step R T t0 m st (m.mm_to_microsteps distance_mm) .RELATIVE fuel

/-- Source `Motor.move_absolute_position_in_mm`. -/
def move_absolute_position_in_mm (R : Nat → List Nat) (T : Nat → Int) (t0 : Int)
    (m : Motor) (st : Serial) (position_mm : ℚ) (fuel : Nat) : MotorM Unit :=
  move_in_step R T t0 m st (m.mm_to_microsteps position_mm) .ABSOLUTE fuel

/-- The `while self._get_parameter(ACTUAL_SPEED) != 0` polling loop of
`Motor.search_reference_position`. -/
def speed_loop (R : Nat → List Nat) : Nat → Serial → MotorM Unit
  | 0, st => (.error .outOfFuel, st)
  | fuel + 1, st =>
    andThen (get_parameter R st .ACTUAL_SPEED) fun speed st =>
    if speed ≠ 0 then speed_loop R fuel st else (.ok (), st)

/-- Source `Motor.search_reference_position`: activate stall guard, rotate left at
velocity 900, poll ACTUAL_SPEED until 0, zero the position register, nudge
0.5 mm off the hard stop, deactivate stall guard. -/
def search_reference_position (R : Nat → List Nat) (T : Nat → Int) (t0 : Int)
    (m : Motor) (st : Serial) (speed_fuel move_fuel : Nat) : MotorM Unit :=
  andThen (activate_stall_guard R st) fun _ st =>
  andThen (write_to_serial R st (TMCL.rotate_left_motor 900)) fun _ st =>
  andThen (speed_loop R speed_fuel st) fun _ st =>
  andThen (write_to_serial R st
    (TMCL.set_axis_parameter .ACTUAL_POSITION_MICROSTEPS 0)) fun _ st =>
  andThen (move_relative_distance_in_mm R T t0 m st (1 / 2) move_fuel) fun _ st =>
  deactivate_stall_guard R st

/-! ## `scanner_motor_manager.py` — the `ScannerControl` group coordinator -/

/-- Source `ScannerControl`: the ordered collection of motors (`self.motors`, a dict
keyed by insertion index 0,1,…). -/
structure ScannerControl where
  motors : List Motor
  deriving DecidableEq, Repr

/-- Source `self.DIST_PER_ROTS = [1.9983, 1.9983, 1.9959]` as exact rationals. -/
def DIST_PER_ROTS : List ℚ := [19983 / 10000, 19983 / 10000, 19959 / 10000]

/-- Source `self.MAX_STEPs = [1303641, 1425174, 1342922]`. -/
def MAX_STEPs : List Int := [1303641, 1425174, 1342922]

/-- Source `ScannerControl.move_to_absolute_position_in_mm`: the thread pool starmaps
`motor.move_absolute_position_in_mm(position)` over
`zip(self.motors.values(), positions)`.  The fan-out is modelled by the
ordered list of dispatched per-axis calls — the `(motor, target mm)` pairs the
pool applies.  No length validation happens before the zip: a shorter list
truncates the pairing silently. -/
def ScannerControl.move_to_absolute_position_in_mm (s : ScannerControl)
    (positions : List ℚ) : List (Motor × ℚ) :=
  s.motors.zip positions

/-- The loop body fold of `ScannerControl.check_position_in_mm_allowed`:
`bl, _ = motor.check_if_position_in_mm_allowed(position)` for each zipped
pair, collecting `bl` (a raised exception would propagate and abort the
loop).  `Rs i` and `sts i` are the reply oracle and write log of the motor at
index `i`. -/
def collect_checks (Rs : Nat → Nat → List Nat) (sts : Nat → Serial) :
    List (Nat × (Motor × ℚ)) → Except MotorErr (List Bool)
  | [] => .ok []
  | (i, (m, p)) :: rest =>
    match (check_if_position_in_mm_allowed (Rs i) m (sts i) p false).1 with
    | .error e => .error e
    | .ok chk =>
      match collect_checks Rs sts rest with
      | .error e => .error e
      | .ok valid => .ok (chk.1 :: valid)

/-- Source `ScannerControl.check_position_in_mm_allowed`.  The `relative` argument is
part of the signature but the body calls each motor's
`check_if_position_in_mm_allowed(position)` without forwarding it, so the
per-axis check always runs with its default `relative=False`. -/
def ScannerControl.check_position_in_mm_allowed (Rs : Nat → Nat → List Nat)
    (sts : Nat → Serial) (s : ScannerControl) (positions : List ℚ)
    (relative : Bool) : Except MotorErr (List Bool) :=
  collect_checks Rs sts (s.motors.zip positions).enum

/-- A well-formed 9-byte reply frame — SUCCESS status, value field the 4
big-endian bytes of `v` — used to instantiate the reply oracle in concrete
scenarios.  The checksum byte is arbitrary (0): `decode_reply` never verifies
it. -/
def okReply (v : Nat) : List Nat :=
  [2, 1, 100, 0, v / 2 ^ 24 % 256, v / 2 ^ 16 % 256, v / 2 ^ 8 % 256, v % 256, 0]

/-! ## Theorems -/

/-- Source `frameOf` of a successful encoding. -/
theorem frameOf_some (f : Frame) : frameOf (some f) = f := rfl

/-- Every TMCL command byte is below 256. -/
theorem TMCLCommands.value_lt_256 (cmd : TMCLCommands) : cmd.value < 256 := by
  cases cmd <;> decide

/-- Decoding a well-formed SUCCESS reply recovers the (unsigned) value field. -/
theorem decode_okReply_int (v : Int) (h0 : 0 ≤ v) (h1 : v < 2 ^ 32) :
    TMCL.decode_reply (okReply v.toNat) = .ok v := by
  unfold TMCL.decode_reply okReply
  simp only [List.drop, List.take, List.isEmpty_cons, List.get?, StatusCodes.ofValue,
    List.foldl, if_false, Bool.false_eq_true]
  congr 1
  have hv : v.toNat < 2 ^ 32 := by omega
  push_cast
  omega

/-- Claim C6 — Every frame `TMCL._encode` produces, for header bytes in range and
a value in the signed 32-bit range, is exactly 9 bytes long, and its final
byte is the arithmetic sum of the first 8 bytes modulo 256. -/
theorem encode_frame_length_checksum (cmd : TMCLCommands) (target_address : Int)
    (parameter_value : Nat) (motor_number : Int) (value : Int)
    (hta0 : 0 ≤ target_address) (hta : target_address < 256)
    (hp : parameter_value < 256)
    (hmn0 : 0 ≤ motor_number) (hmn : motor_number < 256)
    (hv0 : -(2 ^ 31) ≤ value) (hv : value < 2 ^ 31) :
    ∃ f : Frame,
      TMCL.encode cmd target_address parameter_value motor_number value = some f ∧
      f.length = 9 ∧ f.get? 8 = some ((f.take 8).sum % 256) := by
  unfold TMCL.encode
  rw [if_pos ⟨hta0, hta, cmd.value_lt_256, hp, hmn0, hmn⟩]
  unfold to_bytes_4_be_signed
  rw [if_pos ⟨hv0, hv⟩]
  refine ⟨_, rfl, ?_, ?_⟩ <;> simp

/-- Witness for `encode_frame_length_checksum`: the STOP_MOTOR_MOVEMENT frame
of the spec scenario. -/
theorem encode_frame_length_checksum_witness :
    ∃ f : Frame,
      TMCL.encode .STOP_MOTOR_MOVEMENT 1 0 0 0 = some f ∧
      f.length = 9 ∧ f.get? 8 = some ((f.take 8).sum % 256) :=
  encode_frame_length_checksum .STOP_MOTOR_MOVEMENT 1 0 0 0 (by decide) (by decide)
    (by decide) (by decide) (by decide) (by decide) (by decide)

/-- Claim C8 — For every value outside the signed 32-bit range, `TMCL._encode`
raises (`value.to_bytes(4, "big", signed=True)` overflows) and produces no
frame. -/
theorem encode_out_of_range_value_none (cmd : TMCLCommands) (target_address : Int)
    (parameter_value : Nat) (motor_number : Int) (value : Int)
    (hv : value < -(2 ^ 31) ∨ 2 ^ 31 ≤ value) :
    TMCL.encode cmd target_address parameter_value motor_number value = none := by
  have hb : to_bytes_4_be_signed value = none := by
    unfold to_bytes_4_be_signed
    rw [if_neg]
    rintro ⟨h1, h2⟩
    rcases hv with h | h <;> omega
  unfold TMCL.encode
  split
  · rw [hb]
  · rfl

/-- Witness for `encode_out_of_range_value_none` at `2^31`. -/
theorem encode_out_of_range_value_none_witness :
    TMCL.encode .ROTATE_LEFT 1 0 0 (2 ^ 31) = none :=
  encode_out_of_range_value_none .ROTATE_LEFT 1 0 0 (2 ^ 31) (Or.inr le_rfl)

/-- Claim C1 — failing input for the encode/decode round-trip: encoding value
`-1` (GET_AXIS_PARAMETER, parameter MAX_SPEED = 4, whose byte is a valid
status code so decoding completes) and decoding the frame yields the unsigned
reading `4294967295`, not `-1`: `decode_reply` parses the value field with
`int(hex, 16)` and coerces negative 32-bit values to unsigned. -/
theorem decode_encode_neg_one_unsigned :
    TMCL.decode_reply (frameOf (TMCL.encode .GET_AXIS_PARAMETER 1
        TMCLPars.MAX_SPEED.value 0 (-1))) = .ok 4294967295 ∧
      (4294967295 : Int) ≠ -1 := by
  refine ⟨rfl, by decide⟩

/-- Context for the C1 round-trip failure: for nonnegative values in the
32-bit range (and a parameter byte that is a valid status code, here
MAX_SPEED = 4) `decode_reply` does recover the encoded value exactly — the
loss is specific to negative values. -/
theorem decode_encode_roundtrip_nonneg (v : Int) (h0 : 0 ≤ v) (h1 : v < 2 ^ 31) :
    TMCL.decode_reply (frameOf (TMCL.encode .GET_AXIS_PARAMETER 1
        TMCLPars.MAX_SPEED.value 0 v)) = .ok v := by
  rw [TMCL.encode, if_pos ⟨by decide, by decide, by decide, by decide, by decide,
    by decide⟩, to_bytes_4_be_signed, if_pos ⟨le_trans (by norm_num) h0, h1⟩]
  simp only [frameOf_some]
  unfold TMCL.decode_reply
  simp only [TMCLCommands.value, TMCLPars.value, List.cons_append, List.nil_append,
    List.drop, List.take, List.isEmpty_cons, List.get?, List.foldl,
    StatusCodes.ofValue, Bool.false_eq_true, if_false]
  congr 1
  have hv : (v % 2 ^ 32).toNat < 2 ^ 32 := by omega
  push_cast
  omega

/-- Claim C9 — Every reply shorter than 9 bytes makes `decode_reply` raise:
replies of 0–4 bytes while parsing the value field (`int("", 16)`), replies of
5–8 bytes while reading the checksum byte (`dec_reply[8]`). -/
theorem decode_reply_short_raises (reply : List Nat) (h : reply.length < 9) :
    TMCL.decode_reply reply =
      .error (if reply.length ≤ 4 then .emptyValueField else .missingChecksum) := by
  rcases reply with _ | ⟨a, _ | ⟨b, _ | ⟨c, _ | ⟨d, _ | ⟨e, _ | ⟨f, _ | ⟨g, _ |
    ⟨h8, _ | ⟨i, rest⟩⟩⟩⟩⟩⟩⟩⟩⟩ <;> first
    | rfl
    | (simp only [List.length_cons] at h; omega)

/-- Witness for `decode_reply_short_raises`: the empty read of a transport
timeout and a 5-byte partial reply. -/
theorem decode_reply_short_raises_witness :
    TMCL.decode_reply [] = .error .emptyValueField ∧
      TMCL.decode_reply [1, 2, 3, 4, 5] = .error .missingChecksum := by
  constructor
  · simpa using decode_reply_short_raises [] (by decide)
  · simpa using decode_reply_short_raises [1, 2, 3, 4, 5] (by decide)

/-! ### Helper lemmas about the serial model -/

/-- Reading any axis parameter always encodes successfully. -/
theorem get_axis_parameter_some (p : TMCLPars) :
    TMCL.get_axis_parameter p = some (frameOf (TMCL.get_axis_parameter p)) := by
  cases p <;> rfl

/-- Storing any axis parameter always encodes successfully. -/
theorem store_axis_parameter_some (p : TMCLPars) :
    TMCL.store_axis_parameter p = some (frameOf (TMCL.store_axis_parameter p)) := by
  cases p <;> rfl

/-- Source `_write_to_serial` on a successfully encoded command whose reply decodes:
return the decoded value and append the frame to the log. -/
theorem write_some_ok (R : Nat → List Nat) (st : Serial) (f : Frame) (v : Int)
    (h : TMCL.decode_reply (R st.length) = .ok v) :
    write_to_serial R st (some f) = (.ok v, st ++ [f]) := by
  simp [write_to_serial, h]

/-- Source `_get_parameter` under a decodable oracle: the read yields the oracle value
at the current write index and logs one GET frame. -/
theorem get_parameter_ok (R : Nat → List Nat) (vals : Nat → Int)
    (hR : ∀ a, TMCL.decode_reply (R a) = .ok (vals a)) (st : Serial) (p : TMCLPars) :
    get_parameter R st p
      = (.ok (vals st.length), st ++ [frameOf (TMCL.get_axis_parameter p)]) := by
  rw [get_parameter, get_axis_parameter_some p, write_some_ok _ _ _ _ (hR st.length)]
  simp [frameOf_some]

/-- Source `_set_and_store` under a decodable oracle: two frames are logged. -/
theorem set_and_store_ok (R : Nat → List Nat) (vals : Nat → Int)
    (hR : ∀ a, TMCL.decode_reply (R a) = .ok (vals a)) (st : Serial) (p : TMCLPars)
    (v : Int) (f : Frame) (hf : TMCL.set_axis_parameter p v = some f) :
    set_and_store R st p v
      = (.ok (), st ++ [f, frameOf (TMCL.store_axis_parameter p)]) := by
  rw [set_and_store, hf, write_some_ok _ _ _ _ (hR st.length)]
  simp only [andThen]
  rw [store_axis_parameter_some p, write_some_ok _ _ _ _ (hR _)]
  simp [andThen, frameOf_some]

/-- Source `activate_stall_guard` under a decodable oracle: six frames are logged. -/
theorem activate_stall_guard_ok (R : Nat → List Nat) (vals : Nat → Int)
    (hR : ∀ a, TMCL.decode_reply (R a) = .ok (vals a)) (st : Serial) :
    activate_stall_guard R st = (.ok (), st ++
      [frameOf (TMCL.set_axis_parameter .MAX_SPEED 1000),
       frameOf (TMCL.store_axis_parameter .MAX_SPEED),
       frameOf (TMCL.set_axis_parameter .MIXED_DECAY_THRESHOLD 2048),
       frameOf (TMCL.store_axis_parameter .MIXED_DECAY_THRESHOLD),
       frameOf (TMCL.set_axis_parameter .STALL_DETECTION_THRESHOLD 7),
       frameOf (TMCL.store_axis_parameter .STALL_DETECTION_THRESHOLD)]) := by
  rw [activate_stall_guard, set_and_store_ok R vals hR st .MAX_SPEED 1000 _ rfl]
  simp only [andThen]
  rw [set_and_store_ok R vals hR _ .MIXED_DECAY_THRESHOLD 2048 _ rfl]
  simp only [andThen]
  rw [set_and_store_ok R vals hR _ .STALL_DETECTION_THRESHOLD
    Motor.STALL_THRESHOLD _ rfl]
  simp [List.append_assoc]
  all_goals decide

/-- Source `deactivate_stall_guard` under a decodable oracle: six frames are logged. -/
theorem deactivate_stall_guard_ok (R : Nat → List Nat) (vals : Nat → Int)
    (hR : ∀ a, TMCL.decode_reply (R a) = .ok (vals a)) (st : Serial) :
    deactivate_stall_guard R st = (.ok (), st ++
      [frameOf (TMCL.set_axis_parameter .MAX_SPEED 1000),
       frameOf (TMCL.store_axis_parameter .MAX_SPEED),
       frameOf (TMCL.set_axis_parameter .MIXED_DECAY_THRESHOLD (-1)),
       frameOf (TMCL.store_axis_parameter .MIXED_DECAY_THRESHOLD),
       frameOf (TMCL.set_axis_parameter .STALL_DETECTION_THRESHOLD 0),
       frameOf (TMCL.store_axis_parameter .STALL_DETECTION_THRESHOLD)]) := by
  rw [deactivate_stall_guard, set_and_store_ok R vals hR st .MAX_SPEED 1000 _ rfl]
  simp only [andThen]
  rw [set_and_store_ok R vals hR _ .MIXED_DECAY_THRESHOLD
    Motor.DECAY_THRESHOLD _ rfl]
  simp only [andThen]
  rw [set_and_store_ok R vals hR _ .STALL_DETECTION_THRESHOLD 0 _ rfl]
  simp [List.append_assoc]
  all_goals decide

/-- The ACTUAL_SPEED polling loop of `search_reference_position` reads exactly
`k + 1` times when the `k`-th read (0-based) is the first zero. -/
theorem speed_loop_replicate (R : Nat → List Nat) (vals : Nat → Int)
    (hR : ∀ a, TMCL.decode_reply (R a) = .ok (vals a)) :
    ∀ (k : Nat) (st : Serial) (fuel : Nat),
      (∀ i, i < k → vals (st.length + i) ≠ 0) → vals (st.length + k) = 0 →
      k < fuel →
      speed_loop R fuel st
        = (.ok (), st ++ List.replicate (k + 1)
            (frameOf (TMCL.get_axis_parameter .ACTUAL_SPEED))) := by
  intro k
  induction k with
  | zero =>
    intro st fuel _ hstop hfuel
    match fuel, hfuel with
    | fuel + 1, _ =>
      rw [speed_loop, get_parameter_ok R vals hR st .ACTUAL_SPEED]
      simp only [andThen]
      rw [if_neg (by simpa using hstop)]
      simp
  | succ n ih =>
    intro st fuel hspin hstop hfuel
    match fuel, hfuel with
    | fuel + 1, hfuel =>
      rw [speed_loop, get_parameter_ok R vals hR st .ACTUAL_SPEED]
      simp only [andThen]
      rw [if_pos (by simpa using hspin 0 (Nat.succ_pos n))]
      rw [ih (st ++ [frameOf (TMCL.get_axis_parameter .ACTUAL_SPEED)]) fuel ?_ ?_
        (by omega)]
      · simp [List.replicate_succ]
      · intro i hi
        have := hspin (i + 1) (by omega)
        simpa [show st.length + 1 + i = st.length + (i + 1) by omega] using this
      · simpa [show st.length + 1 + n = st.length + (n + 1) by omega] using hstop

/-- If the motion-completion loop detects no progress from `position_old` and
the target is never reported reached, it eventually reaches the `exit()`
branch: the process terminates. -/
theorem check_loop_frozen_exits (R : Nat → List Nat) (T : Nat → Int)
    (vals : Nat → Int) (hR : ∀ a, TMCL.decode_reply (R a) = .ok (vals a))
    (p0 : Int) :
    ∀ (fuel i : Nat) (last_move_time : Int) (st : Serial),
      (∀ j, vals (st.length + 2 * j) = 0) →
      (∀ j, vals (st.length + 2 * j + 1) = p0) →
      (∃ j, i ≤ j ∧ j < i + fuel ∧ T j - last_move_time > Motor.MAX_FREEZE_TIME) →
      (check_loop R T p0 fuel i last_move_time st).1 = .error .exited := by
  intro fuel
  induction fuel with
  | zero =>
    rintro i lm st _ _ ⟨j, hj1, hj2, _⟩
    omega
  | succ fuel ih =>
    rintro i lm st htgt hpos ⟨j, hj1, hj2, hj3⟩
    rw [check_loop, get_parameter_ok R vals hR st .TARGET_POSITION_REACHED]
    simp only [andThen]
    rw [if_pos (by simpa using htgt 0)]
    rw [get_parameter_ok R vals hR _ .ACTUAL_POSITION_MICROSTEPS]
    simp only [andThen]
    have hp : vals ((st ++ [frameOf (TMCL.get_axis_parameter
        .TARGET_POSITION_REACHED)]).length) = p0 := by
      simpa using hpos 0
    rw [hp, if_neg (by simp)]
    by_cases ht : T i - lm > Motor.MAX_FREEZE_TIME
    · rw [if_pos ht]
    · rw [if_neg ht]
      apply ih (i + 1) lm
      · intro a
        have := htgt (a + 1)
        simpa [show st.length + 2 + 2 * a = st.length + 2 * (a + 1) by omega]
          using this
      · intro a
        have := hpos (a + 1)
        simpa [show st.length + 2 + 2 * a + 1 = st.length + 2 * (a + 1) + 1 by omega]
          using this
      · refine ⟨j, ?_, by omega, hj3⟩
        rcases Nat.eq_or_lt_of_le hj1 with h | h
        · exact absurd (h ▸ hj3) ht
        · omega

/-- Claim C2 (amended) — When every polled ACTUAL_POSITION equals the position
read at the start of the wait (`vals 0`) and TARGET_POSITION_REACHED always
reads 0, `_check_if_finished_moving` reaches, after finitely many polls (as
soon as some poll time exceeds `last_move_time` by more than
MAX_FREEZE_TIME = 10), the branch that logs and calls `exit()`: the process
terminates instead of a `MotionError::Stalled` failure being returned to the
caller (no such error exists in the code). -/
theorem check_if_finished_moving_frozen_exits (R : Nat → List Nat) (T : Nat → Int)
    (vals : Nat → Int) (t0 : Int) (fuel : Nat)
    (hR : ∀ a, TMCL.decode_reply (R a) = .ok (vals a))
    (htgt : ∀ j, vals (1 + 2 * j) = 0)
    (hpos : ∀ j, vals (2 + 2 * j) = vals 0)
    (k : Nat) (hk : T k - t0 > Motor.MAX_FREEZE_TIME) (hfuel : k < fuel) :
    (check_if_finished_moving R T t0 [] fuel).1 = .error .exited := by
  rw [check_if_finished_moving,
    get_parameter_ok R vals hR [] .ACTUAL_POSITION_MICROSTEPS]
  simp only [andThen, List.length_nil, List.nil_append]
  apply check_loop_frozen_exits R T vals hR (vals 0) fuel 0 t0
  · intro j
    simpa using htgt j
  · intro j
    simpa [show 1 + 2 * j + 1 = 2 + 2 * j by omega] using hpos j
  · exact ⟨k, Nat.zero_le k, by omega, hk⟩

/-- Witness for `check_if_finished_moving_frozen_exits`: position frozen at 6,
target never reached, clock advancing one unit per poll — the freeze fires at
poll 11. -/
theorem check_if_finished_moving_frozen_exits_witness :
    (check_if_finished_moving
        (fun a => okReply ((if a % 2 = 1 then (0 : Int) else 6).toNat))
        (fun a => (a : Int)) 0 [] 20).1 = .error .exited := by
  apply check_if_finished_moving_frozen_exits _ _
    (fun a => if a % 2 = 1 then (0 : Int) else 6) 0 20 ?_ ?_ ?_ 11 (by decide)
    (by norm_num)
  · intro a
    apply decode_okReply_int
    · split <;> norm_num
    · split <;> norm_num
  · intro j
    have h : (1 + 2 * j) % 2 = 1 := by omega
    simp [h]
  · intro j
    have h : ¬ (2 + 2 * j) % 2 = 1 := by omega
    simp [h]

/-- Claim C2 (counterexample) — A concrete stalled motion: ACTUAL_POSITION reads
5 on every poll (equal to the initial read), TARGET_POSITION_REACHED always
reads 0, time advances one unit per poll.  The wait does not yield a
`MotionError::Stalled` failure to the caller: it reaches `exit()` and the
process terminates, refuting "it neither hangs nor terminates the process". -/
theorem frozen_motion_exit_counterexample :
    (check_if_finished_moving (fun a => okReply (if a % 2 = 1 then 0 else 5))
        (fun a => (a : Int)) 0 [] 20).1 = .error .exited := by
  rfl

/-- Claim C5 — For every integer `steps` with `relative=False`,
`check_if_microstep_allowed` succeeds (returns `(True, "Valid")`) exactly when
`0 ≤ steps ≤ MAX_STEP`; outside that range it returns `False` together with
the descriptive message of the branch taken (`steps > MAX_STEP` is checked
first), and it performs no hardware I/O. -/
theorem check_if_microstep_allowed_iff (R : Nat → List Nat) (m : Motor)
    (st : Serial) (steps : Int) :
    ((check_if_microstep_allowed R m st steps false).1 = .ok (true, "Valid")
        ↔ 0 ≤ steps ∧ steps ≤ m.MAX_STEP) ∧
    ((steps < 0 ∨ m.MAX_STEP < steps) →
      (check_if_microstep_allowed R m st steps false).1
        = .ok (false,
            if m.MAX_STEP < steps then msg_step_too_large m steps
            else msg_step_negative m steps)) ∧
    (check_if_microstep_allowed R m st steps false).2 = st := by
  rw [check_if_microstep_allowed, if_neg (by decide : ¬ (false = true))]
  simp only [andThen]
  by_cases h1 : m.MAX_STEP < steps
  · rw [if_pos h1]
    refine ⟨⟨fun h => by simp at h, fun h => by omega⟩, fun _ => by
      rw [if_pos h1], rfl⟩
  · rw [if_neg h1]
    by_cases h2 : steps < 0
    · rw [if_pos h2]
      refine ⟨⟨fun h => by simp at h, fun h => by omega⟩, fun _ => by
        rw [if_neg h1], rfl⟩
    · rw [if_neg h2]
      refine ⟨⟨fun _ => by omega, fun _ => rfl⟩, fun h => by
        rcases h with h | h <;> omega, rfl⟩

/-- Witness for `check_if_microstep_allowed_iff` on a motor with
`MAX_STEP = 100`: steps 5 in range, 101 too large, -1 negative. -/
theorem check_if_microstep_allowed_iff_witness :
    (check_if_microstep_allowed (fun _ => []) ⟨0, 2, 100⟩ [] 5 false).1
        = .ok (true, "Valid") ∧
      (check_if_microstep_allowed (fun _ => []) ⟨0, 2, 100⟩ [] 101 false).1
        = .ok (false, msg_step_too_large ⟨0, 2, 100⟩ 101) ∧
      (check_if_microstep_allowed (fun _ => []) ⟨0, 2, 100⟩ [] (-1) false).1
        = .ok (false, msg_step_negative ⟨0, 2, 100⟩ (-1)) := by
  refine ⟨(check_if_microstep_allowed_iff (fun _ => []) ⟨0, 2, 100⟩ [] 5).1.mpr
      (by norm_num), ?_, ?_⟩
  · have := (check_if_microstep_allowed_iff (fun _ => []) ⟨0, 2, 100⟩ [] 101).2.1
      (Or.inr (by norm_num))
    simpa using this
  · have := (check_if_microstep_allowed_iff (fun _ => []) ⟨0, 2, 100⟩ [] (-1)).2.1
      (Or.inl (by norm_num))
    simpa using this

/-- Claim C4 (amended) — A move whose resolved absolute target violates the
travel bounds is rejected with `ValueError` before MOVE_TO_POSITION is sent:
no move command reaches the transport.  In ABSOLUTE mode the transport records
zero frames; in RELATIVE mode it records exactly the one
GET(ACTUAL_POSITION_MICROSTEPS) exchange `move_in_step` needs to resolve the
target (so "the transport records zero calls" holds only for ABSOLUTE mode). -/
theorem move_in_step_bounds_violation_no_move (R : Nat → List Nat) (T : Nat → Int)
    (t0 : Int) (m : Motor) (steps : Int) (mode : MotorMovement) (fuel : Nat)
    (vals : Nat → Int) (hR : ∀ a, TMCL.decode_reply (R a) = .ok (vals a))
    (hviol : (match mode with
              | .ABSOLUTE => steps
              | .RELATIVE => steps + vals 0) < 0 ∨
             m.MAX_STEP < (match mode with
              | .ABSOLUTE => steps
              | .RELATIVE => steps + vals 0)) :
    (∃ msg, (move_in_step R T t0 m [] steps mode fuel).1
        = .error (.valueFailed msg)) ∧
    (move_in_step R T t0 m [] steps mode fuel).2
      = (match mode with
         | .ABSOLUTE => ([] : Serial)
         | .RELATIVE =>
            [frameOf (TMCL.get_axis_parameter .ACTUAL_POSITION_MICROSTEPS)]) := by
  have key : ∀ (st : Serial) (target : Int),
      (target < 0 ∨ m.MAX_STEP < target) →
      (∃ msg, (andThen (check_if_microstep_allowed R m st target false)
          fun chk st =>
            if chk.1 = false then (.error (.valueFailed chk.2), st)
            else
              andThen (write_to_serial R st
                (TMCL.move_to_position .ABSOLUTE target)) fun _ st =>
              check_if_finished_moving R T t0 st fuel).1
          = .error (.valueFailed msg)) ∧
      (andThen (check_if_microstep_allowed R m st target false)
          fun chk st =>
            if chk.1 = false then (.error (.valueFailed chk.2), st)
            else
              andThen (write_to_serial R st
                (TMCL.move_to_position .ABSOLUTE target)) fun _ st =>
              check_if_finished_moving R T t0 st fuel).2 = st := by
    intro st target hv
    have hchk := check_if_microstep_allowed_iff R m st target
    rw [show check_if_microstep_allowed R m st target false
        = ((check_if_microstep_allowed R m st target false).1,
           (check_if_microstep_allowed R m st target false).2) from rfl,
      hchk.2.1 hv, hchk.2.2]
    simp only [andThen]
    exact ⟨⟨_, rfl⟩, rfl⟩
  cases mode with
  | ABSOLUTE =>
    rw [move_in_step, if_neg (by decide : ¬ (MotorMovement.ABSOLUTE = .RELATIVE))]
    simp only [andThen]
    exact key [] steps hviol
  | RELATIVE =>
    rw [move_in_step, if_pos rfl, get_current_position,
      get_parameter_ok R vals hR [] .ACTUAL_POSITION_MICROSTEPS]
    simp only [andThen, List.length_nil, List.nil_append]
    exact key _ (steps + vals 0) hviol

/-- Witness for `move_in_step_bounds_violation_no_move`: a RELATIVE move of
-50 steps from current position 3 (target -47, negative). -/
theorem move_in_step_bounds_violation_no_move_witness :
    (∃ msg, (move_in_step (fun _ => okReply ((3 : Int).toNat)) (fun a => (a : Int))
        0 ⟨0, 2, 100⟩ [] (-50) .RELATIVE 5).1 = .error (.valueFailed msg)) ∧
    (move_in_step (fun _ => okReply ((3 : Int).toNat)) (fun a => (a : Int))
        0 ⟨0, 2, 100⟩ [] (-50) .RELATIVE 5).2
      = [frameOf (TMCL.get_axis_parameter .ACTUAL_POSITION_MICROSTEPS)] :=
  move_in_step_bounds_violation_no_move _ _ 0 ⟨0, 2, 100⟩ (-50) .RELATIVE 5
    (fun _ => (3 : Int)) (fun _ => decode_okReply_int 3 (by decide) (by decide))
    (Or.inl (by decide))

/-- Claim C4 (counterexample) — The same bounds-violating RELATIVE move shows the
claim's "the transport records zero calls" is false: the move is rejected with
`ValueError` before MOVE_TO_POSITION, but resolving the relative target wrote
one GET(ACTUAL_POSITION_MICROSTEPS) frame to the transport first, so the mock
transport records one call, not zero. -/
theorem move_in_step_relative_violation_writes :
    (move_in_step (fun _ => okReply 0) (fun a => (a : Int)) 0 ⟨0, 2, 100⟩ [] (-1)
        .RELATIVE 5).1
      = .error (.valueFailed (msg_step_negative ⟨0, 2, 100⟩ (-1))) ∧
    (move_in_step (fun _ => okReply 0) (fun a => (a : Int)) 0 ⟨0, 2, 100⟩ [] (-1)
        .RELATIVE 5).2.length = 1 := by
  exact ⟨rfl, rfl⟩

/-- Claim C3 (amended) — `ScannerControl.move_to_absolute_position_in_mm`
performs no length validation: it zips motors with positions, dispatching to
the first `min(#motors, #positions)` axes in index order and silently ignoring
any length mismatch; every dispatched call targets one of the group's own
motors with one of the given positions.  No `ConfigError` (or any other error)
exists on this path. -/
theorem group_move_zip_truncates (s : ScannerControl) (positions : List ℚ) :
    (s.move_to_absolute_position_in_mm positions).length
      = min s.motors.length positions.length ∧
    ∀ mp ∈ s.move_to_absolute_position_in_mm positions,
      mp.1 ∈ s.motors ∧ mp.2 ∈ positions := by
  constructor
  · simp [ScannerControl.move_to_absolute_position_in_mm]
  · intro mp hmp
    exact List.of_mem_zip hmp

/-- Witness for `group_move_zip_truncates` on the three-motor group with a
2-element positions list. -/
theorem group_move_zip_truncates_witness :
    (ScannerControl.move_to_absolute_position_in_mm
        ⟨[⟨0, 19983 / 10000, 1303641⟩, ⟨1, 19983 / 10000, 1425174⟩,
          ⟨2, 19959 / 10000, 1342922⟩]⟩ [10, 20]).length = min 3 2 ∧
    ((⟨0, 19983 / 10000, 1303641⟩ : Motor)
        ∈ (⟨[⟨0, 19983 / 10000, 1303641⟩, ⟨1, 19983 / 10000, 1425174⟩,
             ⟨2, 19959 / 10000, 1342922⟩]⟩ : ScannerControl).motors ∧
      (10 : ℚ) ∈ [(10 : ℚ), 20]) := by
  refine ⟨?_, ?_⟩
  · exact (group_move_zip_truncates _ [10, 20]).1
  · exact (group_move_zip_truncates _ [10, 20]).2 (⟨0, 19983 / 10000, 1303641⟩, 10)
      (by simp [ScannerControl.move_to_absolute_position_in_mm])

/-- Claim C3 (counterexample) — The spec scenario: a three-axis group given the
2-element list `[10.0, 20.0]` does **not** fail with a `ConfigError` before
touching any axis.  Instead the zip silently truncates: axes 0 and 1 are
dispatched (`move_absolute_position_in_mm(10.0)` / `(20.0)`), axis 2 is not,
and no error precedes the dispatch. -/
theorem group_move_length_mismatch_dispatches :
    (ScannerControl.move_to_absolute_position_in_mm
        ⟨[⟨0, 19983 / 10000, 1303641⟩, ⟨1, 19983 / 10000, 1425174⟩,
          ⟨2, 19959 / 10000, 1342922⟩]⟩ [10, 20])
      = [(⟨0, 19983 / 10000, 1303641⟩, 10), (⟨1, 19983 / 10000, 1425174⟩, 20)] := by
  rfl

/-- Claim C10 — `ScannerControl.check_position_in_mm_allowed` returns the same
result for every value of `relative`: the argument is accepted but never
forwarded to the per-axis `check_if_position_in_mm_allowed`, which therefore
always validates each position as an absolute position (its own default
`relative=False`). -/
theorem group_check_ignores_relative (Rs : Nat → Nat → List Nat)
    (sts : Nat → Serial) (s : ScannerControl) (positions : List ℚ)
    (r1 r2 : Bool) :
    ScannerControl.check_position_in_mm_allowed Rs sts s positions r1
      = ScannerControl.check_position_in_mm_allowed Rs sts s positions r2 := rfl

/-- Source `_write_to_serial` on any successfully encoded command: decoded oracle
value out, the command's frame appended. -/
theorem write_cmd_ok (R : Nat → List Nat) (st : Serial) (o : Option Frame)
    (hsome : ∃ f, o = some f) (v : Int)
    (h : TMCL.decode_reply (R st.length) = .ok v) :
    write_to_serial R st o = (.ok v, st ++ [frameOf o]) := by
  obtain ⟨f, hf⟩ := hsome
  subst hf
  simp [write_to_serial, h, frameOf_some]

/-- MOVE_TO_POSITION encodes successfully for values in the signed 32-bit
range. -/
theorem move_to_position_some (mode : MotorMovement) (v : Int)
    (h0 : -(2 ^ 31) ≤ v) (h1 : v < 2 ^ 31) :
    ∃ f, TMCL.move_to_position mode v = some f := by
  rw [TMCL.move_to_position, TMCL.encode, if_pos ⟨by decide, by decide, by decide,
    by cases mode <;> decide, by decide, by decide⟩, to_bytes_4_be_signed,
    if_pos ⟨h0, h1⟩]
  exact ⟨_, rfl⟩

/-- Source `_check_if_finished_moving` when the very first TARGET_POSITION_REACHED
poll reads nonzero: two reads, no further polling. -/
theorem check_if_finished_moving_immediate (R : Nat → List Nat) (vals : Nat → Int)
    (hR : ∀ a, TMCL.decode_reply (R a) = .ok (vals a)) (T : Nat → Int) (t0 : Int)
    (st : Serial) (fuel : Nat) (h : vals (st.length + 1) ≠ 0) (hf : 0 < fuel) :
    check_if_finished_moving R T t0 st fuel
      = (.ok (), st ++
          [frameOf (TMCL.get_axis_parameter .ACTUAL_POSITION_MICROSTEPS),
           frameOf (TMCL.get_axis_parameter .TARGET_POSITION_REACHED)]) := by
  rw [check_if_finished_moving,
    get_parameter_ok R vals hR st .ACTUAL_POSITION_MICROSTEPS]
  simp only [andThen]
  match fuel, hf with
  | fuel + 1, _ =>
    rw [check_loop, get_parameter_ok R vals hR _ .TARGET_POSITION_REACHED]
    simp only [andThen]
    rw [if_neg (by simpa using h)]
    simp

/-- Source `move_relative_distance_in_mm(0.5)` when the current position reads 0, the
nudge target is within bounds and the 32-bit range, and the first
target-reached poll succeeds: one position read, the ABSOLUTE move command,
and the two reads of the completion wait. -/
theorem move_relative_half_ok (R : Nat → List Nat) (vals : Nat → Int)
    (hR : ∀ a, TMCL.decode_reply (R a) = .ok (vals a)) (T : Nat → Int) (t0 : Int)
    (m : Motor) (st : Serial) (fuel : Nat)
    (hcur : vals st.length = 0)
    (hreached : vals (st.length + 3) ≠ 0)
    (hn0 : 0 ≤ m.mm_to_microsteps (1 / 2))
    (hn1 : m.mm_to_microsteps (1 / 2) ≤ m.MAX_STEP)
    (hn2 : m.mm_to_microsteps (1 / 2) < 2 ^ 31)
    (hf : 0 < fuel) :
    move_relative_distance_in_mm R T t0 m st (1 / 2) fuel
      = (.ok (), st ++
          [frameOf (TMCL.get_axis_parameter .ACTUAL_POSITION_MICROSTEPS),
           frameOf (TMCL.move_to_position .ABSOLUTE (m.mm_to_microsteps (1 / 2))),
           frameOf (TMCL.get_axis_parameter .ACTUAL_POSITION_MICROSTEPS),
           frameOf (TMCL.get_axis_parameter .TARGET_POSITION_REACHED)]) := by
  rw [move_relative_distance_in_mm, move_in_step, if_pos rfl, get_current_position,
    get_parameter_ok R vals hR st .ACTUAL_POSITION_MICROSTEPS]
  simp only [andThen, hcur, add_zero]
  have hchk := check_if_microstep_allowed_iff R m
    (st ++ [frameOf (TMCL.get_axis_parameter .ACTUAL_POSITION_MICROSTEPS)])
    (m.mm_to_microsteps (1 / 2))
  rw [show check_if_microstep_allowed R m
      (st ++ [frameOf (TMCL.get_axis_parameter .ACTUAL_POSITION_MICROSTEPS)])
      (m.mm_to_microsteps (1 / 2)) false
      = ((check_if_microstep_allowed R m
          (st ++ [frameOf (TMCL.get_axis_parameter .ACTUAL_POSITION_MICROSTEPS)])
          (m.mm_to_microsteps (1 / 2)) false).1,
         (check_if_microstep_allowed R m
          (st ++ [frameOf (TMCL.get_axis_parameter .ACTUAL_POSITION_MICROSTEPS)])
          (m.mm_to_microsteps (1 / 2)) false).2) from rfl,
    hchk.1.mpr ⟨hn0, hn1⟩, hchk.2.2]
  simp only [andThen]
  rw [if_neg (by decide : ¬ ((true, "Valid").1 = false))]
  rw [write_cmd_ok _ _ _ (move_to_position_some .ABSOLUTE (m.mm_to_microsteps (1 / 2))
      (le_trans (by norm_num) hn0) hn2) _ (hR _)]
  simp only [andThen]
  rw [check_if_finished_moving_immediate R vals hR T t0 _ fuel
    (by convert hreached using 2 <;> simp <;> omega) hf]
  simp [List.append_assoc]

/-- Claim C7 — `search_reference_position` performs exactly, in order: activate
stall guard (3 SET+STORE pairs), ROTATE_LEFT at velocity 900, `k + 1` reads of
ACTUAL_SPEED (the first `k` nonzero, then 0), SET ACTUAL_POSITION_MICROSTEPS := 0
(zeroing the position register), the 0.5 mm relative nudge (one position read,
MOVE_TO_POSITION ABSOLUTE of the nudge target, and the completion wait's two
reads), and deactivate stall guard (3 SET+STORE pairs) — terminating with
success whenever the simulated ACTUAL_SPEED sequence eventually reads 0. -/
theorem search_reference_position_sequence (R : Nat → List Nat) (T : Nat → Int)
    (t0 : Int) (m : Motor) (vals : Nat → Int) (k : Nat)
    (speed_fuel move_fuel : Nat)
    (hR : ∀ a, TMCL.decode_reply (R a) = .ok (vals a))
    (hspin : ∀ i, i < k → vals (7 + i) ≠ 0)
    (hstop : vals (7 + k) = 0)
    (hcur : vals (9 + k) = 0)
    (hreached : vals (12 + k) ≠ 0)
    (hn0 : 0 ≤ m.mm_to_microsteps (1 / 2))
    (hn1 : m.mm_to_microsteps (1 / 2) ≤ m.MAX_STEP)
    (hn2 : m.mm_to_microsteps (1 / 2) < 2 ^ 31)
    (hsf : k < speed_fuel) (hmf : 0 < move_fuel) :
    search_reference_position R T t0 m [] speed_fuel move_fuel
      = (.ok (),
        [frameOf (TMCL.set_axis_parameter .MAX_SPEED 1000),
         frameOf (TMCL.store_axis_parameter .MAX_SPEED),
         frameOf (TMCL.set_axis_parameter .MIXED_DECAY_THRESHOLD 2048),
         frameOf (TMCL.store_axis_parameter .MIXED_DECAY_THRESHOLD),
         frameOf (TMCL.set_axis_parameter .STALL_DETECTION_THRESHOLD 7),
         frameOf (TMCL.store_axis_parameter .STALL_DETECTION_THRESHOLD),
         frameOf (TMCL.rotate_left_motor 900)]
        ++ List.replicate (k + 1) (frameOf (TMCL.get_axis_parameter .ACTUAL_SPEED))
        ++ [frameOf (TMCL.set_axis_parameter .ACTUAL_POSITION_MICROSTEPS 0),
            frameOf (TMCL.get_axis_parameter .ACTUAL_POSITION_MICROSTEPS),
            frameOf (TMCL.move_to_position .ABSOLUTE (m.mm_to_microsteps (1 / 2))),
            frameOf (TMCL.get_axis_parameter .ACTUAL_POSITION_MICROSTEPS),
            frameOf (TMCL.get_axis_parameter .TARGET_POSITION_REACHED),
            frameOf (TMCL.set_axis_parameter .MAX_SPEED 1000),
            frameOf (TMCL.store_axis_parameter .MAX_SPEED),
            frameOf (TMCL.set_axis_parameter .MIXED_DECAY_THRESHOLD (-1)),
            frameOf (TMCL.store_axis_parameter .MIXED_DECAY_THRESHOLD),
            frameOf (TMCL.set_axis_parameter .STALL_DETECTION_THRESHOLD 0),
            frameOf (TMCL.store_axis_parameter .STALL_DETECTION_THRESHOLD)]) := by
  rw [search_reference_position, activate_stall_guard_ok R vals hR []]
  simp only [andThen, List.nil_append]
  rw [write_cmd_ok _ _ (TMCL.rotate_left_motor 900) ⟨_, rfl⟩ _ (hR _)]
  simp only [andThen]
  rw [speed_loop_replicate R vals hR k
    ([frameOf (TMCL.set_axis_parameter .MAX_SPEED 1000),
      frameOf (TMCL.store_axis_parameter .MAX_SPEED),
      frameOf (TMCL.set_axis_parameter .MIXED_DECAY_THRESHOLD 2048),
      frameOf (TMCL.store_axis_parameter .MIXED_DECAY_THRESHOLD),
      frameOf (TMCL.set_axis_parameter .STALL_DETECTION_THRESHOLD 7),
      frameOf (TMCL.store_axis_parameter .STALL_DETECTION_THRESHOLD)]
      ++ [frameOf (TMCL.rotate_left_motor 900)]) speed_fuel
    (fun i hi => by convert hspin i hi using 2 <;> simp <;> omega)
    (by convert hstop using 2 <;> simp <;> omega) hsf]
  simp only [andThen]
  rw [write_cmd_ok _ _ (TMCL.set_axis_parameter .ACTUAL_POSITION_MICROSTEPS 0)
    ⟨_, rfl⟩ _ (hR _)]
  simp only [andThen]
  rw [move_relative_half_ok R vals hR T t0 m _ move_fuel
    (by convert hcur using 2 <;> simp <;> omega)
    (by convert hreached using 2 <;> simp <;> omega) hn0 hn1 hn2 hmf]
  simp only [andThen]
  rw [deactivate_stall_guard_ok R vals hR _]
  simp [List.append_assoc]

/-- Witness for `search_reference_position_sequence`: the spec scenario with
simulated ACTUAL_SPEED sequence [900, 900, 0] (k = 2) on a mocked axis whose
position reads 0 after zeroing and whose move completes on the first poll. -/
theorem search_reference_position_sequence_witness :
    (search_reference_position
        (fun a => okReply ((if 7 ≤ a ∧ a ≤ 8 then (900 : Int)
          else if a = 14 then 1 else 0).toNat))
        (fun a => (a : Int)) 0 ⟨0, 2, 1303641⟩ [] 10 10).1 = .ok () := by
  have hm : (⟨0, 2, 1303641⟩ : Motor).mm_to_microsteps (1 / 2) = 3200 := by
    simp only [Motor.mm_to_microsteps]
    rw [show ((1 : ℚ) / 2 / (⟨0, 2, 1303641⟩ : Motor).dist_per_rot
        * (200 * 2 ^ Motor.SET_MICROSTEP_RESO)) = 3200 from by
      norm_num [Motor.SET_MICROSTEP_RESO]]
    decide
  have hRok : ∀ a, TMCL.decode_reply ((fun a => okReply ((if 7 ≤ a ∧ a ≤ 8
      then (900 : Int) else if a = 14 then 1 else 0).toNat)) a)
      = .ok ((fun a => if 7 ≤ a ∧ a ≤ 8 then (900 : Int)
          else if a = 14 then 1 else 0) a) := by
    intro a
    by_cases h1 : 7 ≤ a ∧ a ≤ 8
    · simp only [if_pos h1]
      exact decode_okReply_int 900 (by norm_num) (by norm_num)
    · by_cases h2 : a = 14
      · simp only [if_neg h1, if_pos h2]
        exact decode_okReply_int 1 (by norm_num) (by norm_num)
      · simp only [if_neg h1, if_neg h2]
        exact decode_okReply_int 0 (by norm_num) (by norm_num)
  rw [search_reference_position_sequence
    (fun a => okReply ((if 7 ≤ a ∧ a ≤ 8 then (900 : Int)
      else if a = 14 then 1 else 0).toNat))
    (fun a => (a : Int)) 0 ⟨0, 2, 1303641⟩
    (fun a => if 7 ≤ a ∧ a ≤ 8 then (900 : Int) else if a = 14 then 1 else 0)
    2 10 10 hRok
    (by intro i hi; interval_cases i <;> norm_num)
    (by norm_num) (by norm_num) (by norm_num)
    (by rw [hm]; norm_num) (by rw [hm]; norm_num) (by rw [hm]; norm_num)
    (by norm_num) (by norm_num)]

end SMC
